import Mathlib

/-!
Verification of the CSV-to-PostgreSQL conversion script (csv_sql.py) and the
dataframe summary helper (summary.py), as a shallow embedding in Lean.

Files are modelled after CSV parsing: a filesystem maps a path and a text
encoding to the decoded list of records (each record a list of field
strings), or to none when the file cannot be opened or decoded under that
encoding.  Python exceptions are modelled with Except over an error type.
-/

/-- Characters matched by the ASCII part of the Python regex class [\s]. -/
def isPySpace (c : Char) : Bool :=
  c = ' ' || c = '\t' || c = '\n' || c = '\r' || c = '\x0b' || c = '\x0c'

/-- Characters matched by the Python regex class [\s-] used in csv_sql.py. -/
def isSep (c : Char) : Bool :=
  isPySpace c || c = '-'

/-- Embedding of re.sub applied with pattern [\s-] and replacement _ :
each matching character is replaced by one underscore (character lists). -/
def subSepL (l : List Char) : List Char :=
  l.map (fun c => if isSep c then '_' else c)

/-- Embedding of re.sub applied with pattern [\s-] and replacement _ on strings. -/
def subSep (s : String) : String :=
  ⟨subSepL s.data⟩

/-- Embedding of Python str.lower for the ASCII strings in play (character lists). -/
def lowerL (l : List Char) : List Char :=
  l.map Char.toLower

/-- Embedding of Python str.lower on strings. -/
def strLower (s : String) : String :=
  ⟨lowerL s.data⟩

/-- Embedding of Python str.split with a one-character separator: splitting
an empty string gives one empty piece, and k separators give k+1 pieces. -/
def splitOnChar (c : Char) : List Char → List (List Char)
  | [] => [[]]
  | x :: xs =>
    if x = c then [] :: splitOnChar c xs
    else
      match splitOnChar c xs with
      | [] => [[x]]
      | h :: t => (x :: h) :: t

/-- Embedding of os.path.basename on a POSIX path: the part after the last slash. -/
def basenameL (l : List Char) : List Char :=
  (splitOnChar '/' l).getLastD []

/-- Embedding of Python str.join: empty list gives the empty string, a
singleton gives its element, otherwise the separator goes between elements. -/
def joinSep (sep : String) : List String → String
  | [] => ""
  | [x] => x
  | x :: y :: xs => x ++ sep ++ joinSep sep (y :: xs)

/-- Embedding of csv_sql.filename (src/csv_sql.py lines 8-17):
os.path.basename, then split on dot and take the first piece, then lower,
then replace every whitespace or hyphen character with an underscore. -/
def filename (file_path : String) : String :=
  ⟨subSepL (lowerL ((splitOnChar '.' (basenameL file_path.data)).headD []))⟩

/-- Python exceptions relevant to the two scripts. -/
inductive Err where
  /-- open or decode failure on a file (OSError or UnicodeDecodeError) -/
  | fileReadError
  /-- next() called on an exhausted csv reader -/
  | stopIteration
  /-- read of an unbound local variable (UnboundLocalError, a NameError) -/
  | nameError
  /-- ValueError -/
  | valueError
deriving DecidableEq, Repr

/-- A filesystem: path and encoding to decoded CSV records, none when the
file is missing or its bytes do not decode under that encoding. -/
def FS : Type := String → String → Option (List (List String))

/-- Result of the single write performed by csv_postgresql: the output file
name, the encoding the file is written with, and the text written. -/
structure Written where
  name : String
  enc : String
  text : String
deriving DecidableEq, Repr

/-- Embedding of csv_sql._get_header (src/csv_sql.py lines 20-35): open the
file under the given encoding and return the first record; StopIteration
when the file has no records. -/
def get_header (fs : FS) (file_path : String) (encoding : String) :
    Except Err (List String) :=
  match fs file_path encoding with
  | none => .error .fileReadError
  | some [] => .error .stopIteration
  | some (h :: _) => .ok h

/-- The single-quote character, written via its code point. -/
def qChar : Char := '\x27'

/-- Embedding of Python str.replace applied with a one-character pattern:
each single quote becomes two single quotes (character lists). -/
def escQuoteL : List Char → List Char
  | [] => []
  | c :: cs => if c = qChar then qChar :: qChar :: escQuoteL cs
               else c :: escQuoteL cs

/-- Embedding of str(item).replace applied to a field (strings). -/
def escQuote (s : String) : String :=
  ⟨escQuoteL s.data⟩

/-- One formatted field of a VALUES row: quote doubling then single-quote
wrapping (src/csv_sql.py line 106). -/
def quoteItem (item : String) : String :=
  "\x27" ++ escQuote item ++ "\x27"

/-- One formatted VALUES row (src/csv_sql.py lines 105-110): fields joined
with comma-space, wrapped in parentheses preceded by newline and tab. -/
def fmtRow (row : List String) : String :=
  "\n\t(" ++ joinSep ", " (row.map quoteItem) ++ ")"

/-- Embedding of csv_sql._values_str (src/csv_sql.py lines 68-113): re-open
the file, skip the header record (StopIteration when there is none), format
every remaining record and join the formatted rows with comma-space. -/
def values_str (fs : FS) (file_path : String) (encoding : String) :
    Except Err String :=
  match fs file_path encoding with
  | none => .error .fileReadError
  | some [] => .error .stopIteration
  | some (_ :: rows) => .ok (joinSep ", " (rows.map fmtRow))

/-- Embedding of csv_sql._column_def (src/csv_sql.py lines 38-65): a tab,
then the quoted column names typed TEXT joined with comma-space-newline-tab. -/
def column_def (header : List String) : String :=
  "\t" ++ joinSep ", \n\t" (header.map (fun item => "\"" ++ item ++ "\" TEXT"))

/-- The CREATE SCHEMA fragment (src/csv_sql.py line 175). -/
def schema_frag (schema_name : String) : String :=
  "CREATE SCHEMA " ++ schema_name

/-- The DROP plus CREATE TABLE fragment (src/csv_sql.py lines 178-182). -/
def table_frag (schema_name table_name : String) (header : List String) : String :=
  "DROP TABLE IF EXISTS " ++ schema_name ++ "." ++ table_name ++ ";\n" ++
    "CREATE TABLE " ++ schema_name ++ "." ++ table_name ++ " (\n" ++
    column_def header ++ "\n)"

/-- The INSERT fragment (src/csv_sql.py lines 185-192). -/
def insert_frag (schema_name table_name : String) (header : List String)
    (ivalues_string : String) : String :=
  "INSERT INTO " ++ schema_name ++ "." ++ table_name ++ "\n\t(" ++
    joinSep ", " (header.map (fun item => "\"" ++ item ++ "\"")) ++
    ")\nVALUES" ++ ivalues_string

/-- The assembled output text (src/csv_sql.py line 195): the three fragments
with a semicolon and blank line after the first two and a semicolon after
the third. -/
def output_text (schema_name table_name : String) (header : List String)
    (ivalues_string : String) : String :=
  schema_frag schema_name ++ ";\n\n" ++
    table_frag schema_name table_name header ++ ";\n\n" ++
    insert_frag schema_name table_name header ivalues_string ++ ";"

/-- Resolution of a schema or table name (src/csv_sql.py lines 155-168):
empty means derive from the file name, otherwise separator substitution then
lowercasing. -/
def resolve_name (given : String) (file : String) : String :=
  if given.length = 0 then filename file
  else strLower (subSep given)

/-- Embedding of csv_sql.csv_postgresql (src/csv_sql.py lines 116-202).
The header and row reads call get_header and values_str without forwarding
the encoding argument, exactly as the source does on lines 171 and 190, so
they run under the utf-8 default; the encoding argument is used only for the
final write. -/
def csv_postgresql (fs : FS) (file schema_name table_name encoding : String) :
    Except Err Written :=
  match get_header fs file "utf-8" with
  | .error e => .error e
  | .ok header =>
    match values_str fs file "utf-8" with
    | .error e => .error e
    | .ok ivalues =>
      .ok ⟨filename file ++ ".sql", encoding,
           output_text (resolve_name schema_name file) (resolve_name table_name file)
             header ivalues⟩

/-- The conversion as the specification describes it, for comparison with
csv_postgresql: identical except that the caller-supplied encoding is
forwarded to the header and row reads. -/
def csv_postgresql_spec (fs : FS) (file schema_name table_name encoding : String) :
    Except Err Written :=
  match get_header fs file encoding with
  | .error e => .error e
  | .ok header =>
    match values_str fs file encoding with
    | .error e => .error e
    | .ok ivalues =>
      .ok ⟨filename file ++ ".sql", encoding,
           output_text (resolve_name schema_name file) (resolve_name table_name file)
             header ivalues⟩

/-- Normalization as the specification words it, for comparison with subSep:
every maximal run of whitespace or hyphen characters becomes one underscore.
The flag records whether the previous character was part of a run. -/
def collapse_runs_aux : Bool → List Char → List Char
  | _, [] => []
  | prevSep, c :: cs =>
    if isSep c then
      if prevSep then collapse_runs_aux true cs
      else '_' :: collapse_runs_aux true cs
    else c :: collapse_runs_aux false cs

/-- Normalization as the specification words it, on strings. -/
def collapse_runs (s : String) : String :=
  ⟨collapse_runs_aux false s.data⟩

/-- Joins character-list pieces back together with dots between them. -/
def joinLDot : List (List Char) → List Char
  | [] => []
  | [x] => x
  | x :: y :: t => x ++ '.' :: joinLDot (y :: t)

/-- Extension dropping as the specification words it, for comparison with
the split-at-first-dot of filename: only the trailing extension (the part
from the last dot on) is removed, as os.path.splitext would. -/
def dropLastExt (l : List Char) : List Char :=
  match splitOnChar '.' l with
  | [x] => x
  | parts => joinLDot (parts.dropLast)

/-- The identifier normalizer as the specification words it: final path
segment, trailing extension dropped, lowercased, separators substituted. -/
def filename_spec (file_path : String) : String :=
  ⟨subSepL (lowerL (dropLastExt (basenameL file_path.data)))⟩

/-!
Embedding of summary.py.  A dataframe is modelled with its column list and
abstract pandas-level statistics; the numeric values of a column, as used by
_percentile_count, are a list of rationals.
-/

/-- Abstract view of a pandas DataFrame as summary.py uses it. -/
structure DataFrame where
  /-- df.columns -/
  cols : List String
  /-- str(df[col].dtype) -/
  dtypeOf : String → String
  /-- df[col].dropna().count() -/
  nonNullCount : String → Nat
  /-- len(df[col].unique()) -/
  uniqueCount : String → Nat
  /-- df[col].min() -/
  minV : String → Rat
  /-- df[col].max() -/
  maxV : String → Rat
  /-- df[col].mean() -/
  meanV : String → Rat
  /-- df[col].quantile(q); quantile with no argument is quantile at 1/2 -/
  quantile : String → Rat → Rat
  /-- the values of df[col] as passed to _percentile_count -/
  seriesOf : String → List Rat

/-- One cell of the summary table: a string, a count, a numeric statistic,
or np.nan used as the placeholder. -/
inductive Cell where
  | s (v : String)
  | n (v : Nat)
  | q (v : Rat)
  | nan
deriving DecidableEq, Repr

/-- The summary dictionary: column-label keys in insertion order, each with
its list of cells. -/
abbrev Summary : Type := List (String × List Cell)

/-- Embedding of summary._percentile_count (src/summary.py lines 9-17):
ValueError when the percentile value is None, otherwise the number of
distinct values strictly below it. -/
def percentile_count (series : List Rat) (percentile_value : Option Rat) :
    Except Err Nat :=
  match percentile_value with
  | none => .error .valueError
  | some v => .ok ((series.filter (fun x => x < v)).dedup.length)

/-- Embedding of summary._disjoint (src/summary.py lines 20-25). -/
def disjointPy (a b : List String) : Bool :=
  a.all (fun x => !(b.contains x))

/-- Embedding of Python list.remove: drops the first occurrence, ValueError
when the element is absent. -/
def removeFirst : List String → String → Except Err (List String)
  | [], _ => .error .valueError
  | x :: xs, y =>
    if x = y then .ok xs
    else
      match removeFirst xs y with
      | .error e => .error e
      | .ok rest => .ok (x :: rest)

/-- The loop of src/summary.py lines 68-69: remove each column to skip. -/
def remove_all (cols : List String) : List String → Except Err (List String)
  | [] => .ok cols
  | c :: rest =>
    match removeFirst cols c with
    | .error e => .error e
    | .ok cols2 => remove_all cols2 rest

/-- The overlap guard of src/summary.py lines 57-63 for one argument. -/
def check_overlap (skip : List String) (other : Option (List String)) :
    Except Err Unit :=
  match other with
  | none => .ok ()
  | some l => if disjointPy skip l then .ok () else .error .valueError

/-- The verbose statistic labels of src/summary.py lines 105-108. -/
def statLabels : List String :=
  ["Minimum", "Maximum", "Mean", "Median", "75th Percentile",
   "75th Percentile - Unique Count", "90th Percentile",
   "90th Percentile - Unique Count", "95th Percentile",
   "95th Percentile - Unique Count"]

/-- One statistic column of the verbose block (src/summary.py lines
116-162): the statistic for each column in the verbose list, np.nan for the
rest. -/
def verbose_column (columns verbose : List String)
    (stat : String → Except Err Cell) : Except Err (List Cell) :=
  columns.mapM (fun c => if verbose.contains c then stat c else .ok Cell.nan)

/-- The summary construction of src/summary.py lines 73-165, run once the
working column list is bound. -/
def build_summary (df : DataFrame) (columns : List String)
    (unique_count_cols verbose_cols : Option (List String)) :
    Except Err Summary := do
  let base : Summary :=
    [("Columns", columns.map Cell.s),
     ("Data Type", columns.map (fun c => Cell.s (df.dtypeOf c))),
     ("Non-Null Count", columns.map (fun c => Cell.n (df.nonNullCount c)))]
  let withUnique : Summary :=
    match unique_count_cols with
    | none => base
    | some u =>
      base ++ [("Unique Count",
        columns.map (fun c =>
          if u.contains c then Cell.n (df.uniqueCount c) else Cell.nan))]
  match verbose_cols with
  | none => pure withUnique
  | some v => do
    let mins ← verbose_column columns v (fun c => .ok (Cell.q (df.minV c)))
    let maxs ← verbose_column columns v (fun c => .ok (Cell.q (df.maxV c)))
    let means ← verbose_column columns v (fun c => .ok (Cell.q (df.meanV c)))
    let medians ← verbose_column columns v
      (fun c => .ok (Cell.q (df.quantile c (1/2))))
    let p75 ← verbose_column columns v
      (fun c => .ok (Cell.q (df.quantile c (3/4))))
    let p75u ← verbose_column columns v
      (fun c => (percentile_count (df.seriesOf c)
        (some (df.quantile c (3/4)))).map Cell.n)
    let p90 ← verbose_column columns v
      (fun c => .ok (Cell.q (df.quantile c (9/10))))
    let p90u ← verbose_column columns v
      (fun c => (percentile_count (df.seriesOf c)
        (some (df.quantile c (9/10)))).map Cell.n)
    let p95 ← verbose_column columns v
      (fun c => .ok (Cell.q (df.quantile c (19/20))))
    let p95u ← verbose_column columns v
      (fun c => (percentile_count (df.seriesOf c)
        (some (df.quantile c (19/20)))).map Cell.n)
    pure (withUnique ++
      List.zip statLabels
        [mins, maxs, means, medians, p75, p75u, p90, p90u, p95, p95u])

/-- Embedding of summary.dataframe_info (src/summary.py lines 28-165).  The
working column list is assigned only inside the branch taken when
to_skip_cols is provided (source lines 55-69); when to_skip_cols is None the
dictionary construction on line 73 reads the unbound local, which surfaces
as an UnboundLocalError, a NameError. -/
def dataframe_info (df : DataFrame)
    (to_skip_cols unique_count_cols verbose_cols : Option (List String)) :
    Except Err Summary :=
  let columnsVar : Except Err (Option (List String)) :=
    match to_skip_cols with
    | none => .ok none
    | some skip =>
      match check_overlap skip verbose_cols with
      | .error e => .error e
      | .ok _ =>
        match check_overlap skip unique_count_cols with
        | .error e => .error e
        | .ok _ =>
          match remove_all df.cols skip with
          | .error e => .error e
          | .ok cols => .ok (some cols)
  match columnsVar with
  | .error e => .error e
  | .ok none => .error .nameError
  | .ok (some columns) => build_summary df columns unique_count_cols verbose_cols

/-!
Concrete filesystems used to evaluate the theorems on explicit inputs.
-/

/-- A filesystem holding a.csv with header col1,col2 and one data row 1,2,
readable only as utf-8. -/
def fs_a : FS := fun p e =>
  if p = "a.csv" then
    (if e = "utf-8" then some [["col1", "col2"], ["1", "2"]] else none)
  else none

/-- A filesystem agreeing with fs_a on a.csv but holding one more file. -/
def fs_a2 : FS := fun p e =>
  if p = "a.csv" then
    (if e = "utf-8" then some [["col1", "col2"], ["1", "2"]] else none)
  else if p = "other.csv" then some [["x"], ["y"]]
  else none

/-- A filesystem holding h.csv with a header record and zero data rows. -/
def fs_h : FS := fun p e =>
  if p = "h.csv" then
    (if e = "utf-8" then some [["id", "name"]] else none)
  else none

/-- A filesystem holding o.csv with header id,name and the single data row
whose second field contains a single quote. -/
def fs_o : FS := fun p e =>
  if p = "o.csv" then
    (if e = "utf-8" then some [["id", "name"], ["1", "O\x27Brien"]] else none)
  else none

/-- A filesystem holding e.csv as a file with no records at all. -/
def fs_e : FS := fun p e =>
  if p = "e.csv" then (if e = "utf-8" then some [] else none) else none

/-- A filesystem holding data.csv whose bytes decode under latin-1 but are
not valid utf-8, so a utf-8 read fails. -/
def fs_latin : FS := fun p e =>
  if p = "data.csv" then
    (if e = "latin-1" then some [["col1", "col2"], ["1", "2"]] else none)
  else none

/-- The exact text csv_postgresql generates for a.csv under fs_a. -/
def c4_text : String :=
  "CREATE SCHEMA a;\n\nDROP TABLE IF EXISTS a.a;\nCREATE TABLE a.a (\n\t\"col1\" TEXT, \n\t\"col2\" TEXT\n);\n\nINSERT INTO a.a\n\t(\"col1\", \"col2\")\nVALUES\n\t(\x271\x27, \x272\x27);"

/-- A concrete one-column dataframe used to evaluate theorems about
dataframe_info. -/
def df_w : DataFrame :=
  ⟨["a"], fun _ => "int64", fun _ => 1, fun _ => 1, fun _ => 0, fun _ => 0,
   fun _ => 0, fun _ _ => 0, fun _ => [0]⟩

/-! Helper lemmas -/

theorem ends_nl (x : String) : (x ++ ";\n\n").data.reverse.head? = some '\n' := by
  rw [String.data_append]
  rw [show (";\n\n" : String).data = [';', '\n', '\n'] from rfl]
  rw [List.reverse_append]
  rfl

theorem tab_quote (x : String) :
    "\t" ++ ("\"" ++ x ++ "\" TEXT") = "\t\"" ++ x ++ "\" TEXT" := by
  apply String.ext
  simp only [String.data_append, List.append_assoc]
  rfl

theorem escQuoteL_count (l : List Char) :
    (escQuoteL l).count qChar = 2 * l.count qChar := by
  induction l with
  | nil => rfl
  | cons c cs ih =>
    by_cases h : c = qChar
    · subst h
      simp [escQuoteL, List.count_cons, ih]
      omega
    · simp [escQuoteL, h, List.count_cons, ih]

theorem escQuoteL_filter (l : List Char) :
    (escQuoteL l).filter (fun c => c != qChar) = l.filter (fun c => c != qChar) := by
  induction l with
  | nil => rfl
  | cons c cs ih =>
    by_cases h : c = qChar
    · subst h
      simp [escQuoteL, ih]
    · simp [escQuoteL, h, ih]

theorem subSepL_no_sep (l : List Char) :
    (subSepL l).countP (fun c => isSep c) = 0 := by
  induction l with
  | nil => rfl
  | cons c cs ih =>
    by_cases h : isSep c = true
    · have h2 : isSep '_' = false := by decide
      simp [subSepL, h, List.countP_cons, h2] at ih ⊢
      exact ih
    · simp [subSepL, List.countP_cons, h] at ih ⊢
      exact ih

theorem subSepL_count (l : List Char) :
    (subSepL l).count '_' = l.count '_' + l.countP (fun c => isSep c) := by
  induction l with
  | nil => rfl
  | cons c cs ih =>
    by_cases h : isSep c = true
    · have hne : c ≠ '_' := by
        intro e; subst e; exact absurd h (by decide)
      simp [subSepL, h, List.count_cons, List.countP_cons, hne] at ih ⊢
      omega
    · simp [subSepL, h, List.count_cons, List.countP_cons] at ih ⊢
      by_cases h2 : c = '_' <;> simp [h2] <;> omega

theorem splitOnChar_not_mem {c : Char} : ∀ {l : List Char}, c ∉ l → splitOnChar c l = [l]
  | [], _ => rfl
  | x :: xs, h => by
    have hx : ¬ x = c := fun e => h (e ▸ List.mem_cons_self x xs)
    have hxs : c ∉ xs := fun m => h (List.mem_cons_of_mem _ m)
    simp [splitOnChar, hx, splitOnChar_not_mem hxs]

theorem splitOnChar_append {c : Char} :
    ∀ {base : List Char}, c ∉ base → ∀ rest,
      splitOnChar c (base ++ c :: rest) = base :: splitOnChar c rest
  | [], _, rest => by simp [splitOnChar]
  | x :: base, h, rest => by
    have hx : ¬ x = c := fun e => h (e ▸ List.mem_cons_self x base)
    have hb : c ∉ base := fun m => h (List.mem_cons_of_mem _ m)
    simp [splitOnChar, hx, splitOnChar_append hb rest]

theorem column_def_join : ∀ (l : List String), l ≠ [] →
    "\t" ++ joinSep ", \n\t" (l.map (fun item => "\"" ++ item ++ "\" TEXT")) =
      joinSep ", \n" (l.map (fun item => "\t\"" ++ item ++ "\" TEXT"))
  | [], h => absurd rfl h
  | [x], _ => tab_quote x
  | x :: y :: ys, _ => by
    have ih := column_def_join (y :: ys) (by simp)
    simp only [List.map_cons, joinSep] at ih ⊢
    rw [← ih]
    apply String.ext
    simp only [String.data_append, List.append_assoc]
    rfl

/-! Claim theorems -/

/-- Claim C1 (code slip): csv_postgresql never forwards its encoding
argument to the header and row reads, so a source file readable only under
the caller-supplied latin-1 makes the conversion abort with a read error,
while the conversion as specified succeeds. -/
theorem c1_encoding_not_forwarded :
    csv_postgresql fs_latin "data.csv" "" "" "latin-1" = .error .fileReadError ∧
    csv_postgresql_spec fs_latin "data.csv" "" "" "latin-1" =
      .ok ⟨"data.sql", "latin-1",
        "CREATE SCHEMA data;\n\nDROP TABLE IF EXISTS data.data;\nCREATE TABLE data.data (\n\t\"col1\" TEXT, \n\t\"col2\" TEXT\n);\n\nINSERT INTO data.data\n\t(\"col1\", \"col2\")\nVALUES\n\t(\x271\x27, \x272\x27);"⟩ :=
  ⟨rfl, rfl⟩

/-- Claim C2 counterexample: two adjacent hyphens produce two underscores,
not the single underscore the run-collapsing claim requires. -/
theorem c2_counterexample :
    filename "a--b.csv" = "a__b" ∧ collapse_runs "a--b" = "a_b" ∧
      ("a__b" : String) ≠ "a_b" :=
  ⟨rfl, rfl, by decide⟩

/-- Claim C2 amended: each whitespace or hyphen character is replaced by
one underscore apiece, so the output has no separators, keeps its length,
and carries one underscore per original separator character. -/
theorem c2_amended (s : String) :
    (subSep s).length = s.length ∧
    (subSep s).data.countP (fun c => isSep c) = 0 ∧
    (subSep s).data.count '_' = s.data.count '_' + s.data.countP (fun c => isSep c) ∧
    filename "a--b.csv" = "a__b" ∧
    resolve_name "My  Name" "x.csv" = "my__name" :=
  ⟨show (subSepL s.data).length = s.data.length from List.length_map _ _,
   subSepL_no_sep s.data, subSepL_count s.data, rfl, rfl⟩

/-- Claim C3 counterexample: filename cuts the base name at its first dot,
while the claim keeps everything before the last dot. -/
theorem c3_counterexample :
    filename "my.data.csv" = "my" ∧ filename_spec "my.data.csv" = "my.data" ∧
      ("my" : String) ≠ "my.data" :=
  ⟨rfl, rfl, by decide⟩

/-- Claim C3 amended: for a final path segment of the form base.rest with
no dot in base, everything from the first dot on is dropped and the kept
part is lowercased and separator-substituted. -/
theorem c3_amended (base rest : String) (h1 : '.' ∉ base.data)
    (h2 : '/' ∉ base.data) (h3 : '/' ∉ rest.data) :
    filename ⟨base.data ++ '.' :: rest.data⟩ = subSep (strLower base) := by
  have hslash : '/' ∉ base.data ++ '.' :: rest.data := by
    simp [List.mem_append, h2, h3]
  unfold filename basenameL
  rw [show (String.mk (base.data ++ '.' :: rest.data)).data
        = base.data ++ '.' :: rest.data from rfl]
  rw [splitOnChar_not_mem hslash]
  rw [show ([base.data ++ '.' :: rest.data] : List (List Char)).getLastD []
        = base.data ++ '.' :: rest.data from rfl]
  rw [splitOnChar_append h1 rest.data]
  rfl

/-- Witness for the amended claim C3 at the path my.data.csv. -/
theorem c3_amended_witness :
    ('.' ∉ ("my" : String).data) ∧ ('/' ∉ ("my" : String).data) ∧
    ('/' ∉ ("data.csv" : String).data) ∧
    filename ⟨("my" : String).data ++ '.' :: ("data.csv" : String).data⟩
      = subSep (strLower "my") ∧
    filename "my.data.csv" = "my" :=
  ⟨by decide, by decide, by decide,
   c3_amended "my" "data.csv" (by decide) (by decide) (by decide), rfl⟩

/-- Claim C4 counterexample: the generated text for a.csv ends with a bare
semicolon, so the third fragment is not followed by a blank line as the
claim requires of each of the three fragments. -/
theorem c4_counterexample :
    csv_postgresql fs_a "a.csv" "" "" "utf-8" = .ok ⟨"a.sql", "utf-8", c4_text⟩ ∧
    ¬ ∃ f1 f2 f3 : String,
        c4_text = f1 ++ ";\n\n" ++ f2 ++ ";\n\n" ++ f3 ++ ";\n\n" := by
  refine ⟨rfl, ?_⟩
  rintro ⟨f1, f2, f3, h⟩
  have h2 : c4_text.data.reverse.head? =
      ((f1 ++ ";\n\n" ++ f2 ++ ";\n\n" ++ f3) ++ ";\n\n").data.reverse.head? := by
    rw [← h]
  rw [ends_nl] at h2
  rw [show c4_text.data.reverse.head? = some ';' from rfl] at h2
  exact absurd h2 (by decide)

/-- Claim C4 amended: every successful conversion writes to the file named
after the normalized source filename with extension sql, and its text is
three fragments in fixed order, the first two each followed by a semicolon
and a blank line and the third followed by a semicolon only. -/
theorem c4_amended (fs : FS) (file schema_name table_name encoding : String)
    (w : Written)
    (h : csv_postgresql fs file schema_name table_name encoding = .ok w) :
    w.name = filename file ++ ".sql" ∧ w.enc = encoding ∧
    ∃ f1 f2 f3 : String, w.text = f1 ++ ";\n\n" ++ f2 ++ ";\n\n" ++ f3 ++ ";" := by
  unfold csv_postgresql get_header values_str at h
  cases hfs : fs file "utf-8" with
  | none => rw [hfs] at h; exact Except.noConfusion h
  | some rows =>
    rw [hfs] at h
    cases rows with
    | nil => exact Except.noConfusion h
    | cons hd tl =>
      have hw : w = ⟨filename file ++ ".sql", encoding,
          output_text (resolve_name schema_name file) (resolve_name table_name file)
            hd (joinSep ", " (tl.map fmtRow))⟩ := by
        cases h; rfl
      subst hw
      exact ⟨rfl, rfl,
        schema_frag (resolve_name schema_name file),
        table_frag (resolve_name schema_name file) (resolve_name table_name file) hd,
        insert_frag (resolve_name schema_name file) (resolve_name table_name file)
          hd (joinSep ", " (tl.map fmtRow)), rfl⟩

/-- Witness for the amended claim C4 on the a.csv example. -/
theorem c4_amended_witness :
    csv_postgresql fs_a "a.csv" "" "" "utf-8" = .ok ⟨"a.sql", "utf-8", c4_text⟩ ∧
    (("a.sql" : String) = filename "a.csv" ++ ".sql" ∧ ("utf-8" : String) = "utf-8" ∧
     ∃ f1 f2 f3 : String, c4_text = f1 ++ ";\n\n" ++ f2 ++ ";\n\n" ++ f3 ++ ";") :=
  ⟨rfl, c4_amended fs_a "a.csv" "" "" "utf-8" ⟨"a.sql", "utf-8", c4_text⟩ rfl⟩

/-- Claim C5: for the file with header id,name and single row 1,OBrien the
formatted VALUES text is exactly the two singly-quoted fields with the
embedded quote doubled; in general quote doubling doubles the number of
quote characters and leaves all other characters unchanged. -/
theorem c5_value_formatting (fs : FS) (file encoding : String)
    (h : fs file encoding = some [["id", "name"], ["1", "O\x27Brien"]]) :
    values_str fs file encoding = .ok "\n\t(\x271\x27, \x27O\x27\x27Brien\x27)" ∧
    ∀ s : String, (escQuote s).data.count qChar = 2 * s.data.count qChar ∧
      (escQuote s).data.filter (fun c => c != qChar) =
        s.data.filter (fun c => c != qChar) := by
  refine ⟨?_, fun s => ⟨escQuoteL_count s.data, escQuoteL_filter s.data⟩⟩
  unfold values_str
  rw [h]
  rfl

/-- Witness for claim C5 on the concrete filesystem fs_o. -/
theorem c5_value_formatting_witness :
    fs_o "o.csv" "utf-8" = some [["id", "name"], ["1", "O\x27Brien"]] ∧
    values_str fs_o "o.csv" "utf-8" = .ok "\n\t(\x271\x27, \x27O\x27\x27Brien\x27)" :=
  ⟨rfl, (c5_value_formatting fs_o "o.csv" "utf-8" rfl).1⟩

/-- Claim C6: for a non-empty header the column definition is the lines
quoted-name-space-TEXT, each indented by one tab, separated by a comma,
space and newline. -/
theorem c6_column_def (header : List String) (h : header ≠ []) :
    column_def header =
      joinSep ", \n" (header.map (fun item => "\t\"" ++ item ++ "\" TEXT")) :=
  column_def_join header h

/-- Witness for claim C6 at the header a,b. -/
theorem c6_column_def_witness :
    (["a", "b"] : List String) ≠ [] ∧
    column_def ["a", "b"] = "\t\"a\" TEXT, \n\t\"b\" TEXT" := by
  refine ⟨by decide, ?_⟩
  have hab := c6_column_def ["a", "b"] (by decide)
  exact hab.trans rfl

/-- Claim C7: a file holding exactly a header record converts without any
error, with an empty formatted VALUES text. -/
theorem c7_header_only (fs : FS) (file encoding : String) (hdr : List String)
    (h : fs file "utf-8" = some [hdr]) :
    values_str fs file "utf-8" = .ok "" ∧
    csv_postgresql fs file "" "" encoding =
      .ok ⟨filename file ++ ".sql", encoding,
           output_text (filename file) (filename file) hdr ""⟩ := by
  unfold csv_postgresql values_str get_header resolve_name
  rw [h]
  exact ⟨rfl, rfl⟩

/-- Witness for claim C7 on the header-only file h.csv. -/
theorem c7_header_only_witness :
    fs_h "h.csv" "utf-8" = some [["id", "name"]] ∧
    (values_str fs_h "h.csv" "utf-8" = .ok "" ∧
     csv_postgresql fs_h "h.csv" "" "" "utf-8" =
       .ok ⟨filename "h.csv" ++ ".sql", "utf-8",
            output_text (filename "h.csv") (filename "h.csv") ["id", "name"] ""⟩) :=
  ⟨rfl, c7_header_only fs_h "h.csv" "utf-8" ["id", "name"] rfl⟩

/-- Claim C8: a file with no records at all makes the header read fail with
StopIteration, and the conversion returns that error without producing any
write. -/
theorem c8_no_records (fs : FS) (file schema_name table_name encoding : String)
    (h : fs file "utf-8" = some []) :
    get_header fs file "utf-8" = .error .stopIteration ∧
    csv_postgresql fs file schema_name table_name encoding =
      .error .stopIteration := by
  unfold csv_postgresql get_header
  rw [h]
  exact ⟨rfl, rfl⟩

/-- Witness for claim C8 on the record-free file e.csv. -/
theorem c8_no_records_witness :
    fs_e "e.csv" "utf-8" = some [] ∧
    (get_header fs_e "e.csv" "utf-8" = .error .stopIteration ∧
     csv_postgresql fs_e "e.csv" "" "" "utf-8" = .error .stopIteration) :=
  ⟨rfl, c8_no_records fs_e "e.csv" "" "" "utf-8" rfl⟩

/-- Claim C9: the conversion result, output name, write encoding and text
alike, depends only on the arguments and on the content of the source file,
so two runs over the same input produce byte-identical output. -/
theorem c9_deterministic (fs1 fs2 : FS)
    (file schema_name table_name encoding : String)
    (h : ∀ e, fs1 file e = fs2 file e) :
    csv_postgresql fs1 file schema_name table_name encoding =
      csv_postgresql fs2 file schema_name table_name encoding := by
  unfold csv_postgresql get_header values_str
  rw [h "utf-8"]

/-- Witness for claim C9: two filesystems agreeing on a.csv give the same
conversion result. -/
theorem c9_deterministic_witness :
    csv_postgresql fs_a "a.csv" "" "" "utf-8" =
      csv_postgresql fs_a2 "a.csv" "" "" "utf-8" :=
  c9_deterministic fs_a fs_a2 "a.csv" "" "" "utf-8" (fun _ => rfl)

/-- Claim C10: calling dataframe_info with to_skip_cols left unset reads
the unbound working column list and fails with the NameError-class error,
for every dataframe and every choice of the other arguments. -/
theorem c10_skip_none_name_error (df : DataFrame)
    (unique_count_cols verbose_cols : Option (List String)) :
    dataframe_info df none unique_count_cols verbose_cols = .error .nameError :=
  rfl

/-- Witness for the amended claim C2 at the string a--b. -/
theorem c2_amended_witness :
    (subSep "a--b").length = ("a--b" : String).length ∧
    (subSep "a--b").data.countP (fun c => isSep c) = 0 ∧
    (subSep "a--b").data.count '_' =
      ("a--b" : String).data.count '_' +
        ("a--b" : String).data.countP (fun c => isSep c) ∧
    filename "a--b.csv" = "a__b" ∧
    resolve_name "My  Name" "x.csv" = "my__name" :=
  c2_amended "a--b"

/-- Witness for claim C10 on a concrete dataframe. -/
theorem c10_skip_none_witness :
    dataframe_info df_w none none none = .error .nameError :=
  c10_skip_none_name_error df_w none none
